import Mathlib

/-!
Shallow embedding of `src/frontend/app.js` (a browser dashboard that fetches
trading-hour statistics and position data and renders tables, charts and CSV
exports), together with theorems settling the specification claims.

Modelling conventions:
* Rendered DOM text is modelled as `String`; a JS number that reaches the DOM
  (`td.textContent = c`) is represented by its rendered string.
* A table cell carries its text and an optional CSS class (used for status
  badges); a row carries its cells plus a visibility flag modelling
  `tr.style.display` (`true` = shown, `false` = `display:none`).
* Possibly-missing JS object fields are `Option String` (`none` = absent /
  null / undefined).
* `fetch` responses are `HttpResponse`: `ok data` for a 2xx response with the
  parsed JSON body, `err` for any non-2xx status (the code only tests
  `res.ok`).
* `alert(...)` calls are accumulated in an `alerts` list on the dashboard
  state; a triggered CSV download is returned as `Option String` (the file
  content, `none` when no download happens).
-/

/-- Per-character lower-casing as performed by `String.prototype.toLowerCase`
on the ASCII range (the core `Char.toLower` is exactly the ASCII case fold). -/
def lowerStr (s : String) : String := ⟨s.data.map Char.toLower⟩

/-- Helper for `jsIncludes`: does `pat` occur contiguously in the list? -/
def inclAux (pat : List Char) : List Char → Bool
  | [] => pat.isEmpty
  | c :: rest => pat.isPrefixOf (c :: rest) || inclAux pat rest

/-- JavaScript `s.includes(pat)`: substring containment. -/
def jsIncludes (s pat : String) : Bool := inclAux pat.data s.data

/-- The double-quote character, written via its code point. -/
def dq : Char := Char.ofNat 34

/-- Quote doubling of `String(x).replace` with the all-quotes pattern:
every double quote in the character list is doubled. -/
def escQuotes : List Char → List Char
  | [] => []
  | c :: rest => if c = dq then dq :: dq :: escQuotes rest else c :: escQuotes rest

/-- One CSV cell as built in `exportCurrentTableCSV`: the cell text with
embedded double quotes doubled, wrapped in double quotes. -/
def csvCell (s : String) : String := ⟨dq :: (escQuotes s.data ++ [dq])⟩

/-- JavaScript `Array.prototype.join(sep)`. -/
def joinWith (sep : String) : List String → String
  | [] => ""
  | [x] => x
  | x :: y :: rest => x ++ sep ++ joinWith sep (y :: rest)

/-- A table cell: rendered text plus the class of a badge span, if any. -/
structure Cell where
  text : String
  badgeClass : Option String
deriving DecidableEq, Repr

/-- A table row: its cells and whether it participates in layout
(`tr.style.display` equal to the empty string rather than `none`). -/
structure Row where
  cells : List Cell
  visible : Bool
deriving DecidableEq, Repr

/-- A rendered table: the header row (th texts) followed by body rows. -/
structure TableEl where
  header : List String
  rows : List Row
deriving DecidableEq, Repr

/-- Model of `tr.innerText`: the visible text of a row; cells are joined with tabs. -/
def rowInnerText (r : Row) : String := joinWith "\t" (r.cells.map Cell.text)

/-- One `<option>` of the symbol selection control. -/
structure SelOption where
  value : String
  text : String
deriving DecidableEq, Repr

/-- The data handed to the two `Plotly.newPlot` calls in `renderCharts`:
x and y series of each bar chart. -/
structure Charts where
  volX : List String
  volY : List String
  rangeX : List String
  rangeY : List String
deriving DecidableEq, Repr

/-- An hourly statistic as fetched from `/api/analysis/{symbol}`; each field
is the rendered text of the JS number. -/
structure HourlyStat where
  hour_utc : String
  avg_volume : String
  avg_range : String
deriving DecidableEq, Repr

/-- A position record as fetched from `/api/positions`; `none` models an
absent / null / undefined field. -/
structure Position where
  symbol : Option String
  side : Option String
  size : Option String
  entry_price : Option String
  status : Option String
deriving DecidableEq, Repr

/-- The DOM and page state the script manipulates: the options of `#symbol`,
the table inside `#table`, the table inside `#positionsTable`, the charts,
and the list of alert messages shown so far. -/
structure DashboardState where
  symbolOptions : List SelOption
  analysisTable : Option TableEl
  positionsTable : Option TableEl
  charts : Option Charts
  alerts : List String
deriving DecidableEq, Repr

/-- Outcome of a `fetch`: `ok` with the parsed JSON body when `res.ok`,
`err` for any non-2xx status. -/
inductive HttpResponse (α : Type) where
  | ok (data : α)
  | err
deriving DecidableEq

/-- Function `mapStatusToBadge` from app.js: falsy status is muted, then the
lower-cased status is tested against three keyword groups in order. -/
def mapStatusToBadge (status : Option String) : String :=
  match status with
  | none => "muted"
  | some st =>
    if st = "" then "muted"
    else
      let s := lowerStr st
      if jsIncludes s "open" || jsIncludes s "active" || jsIncludes s "live" then "success"
      else if jsIncludes s "closed" || jsIncludes s "filled" || jsIncludes s "cancel" then "muted"
      else if jsIncludes s "partial" || jsIncludes s "warning" || jsIncludes s "risk" then "warning"
      else "muted"

/-- The badge mapping as worded by the spec (§3 / §8): the lower-cased
status string is tested against the three keyword groups in order, and
everything else — including empty or missing status — is muted. Stated
separately from `mapStatusToBadge` so the code can be compared against it. -/
def badgeCategorySpec (status : Option String) : String :=
  let s := lowerStr (status.getD "")
  if jsIncludes s "open" || jsIncludes s "active" || jsIncludes s "live" then "success"
  else if jsIncludes s "closed" || jsIncludes s "filled" || jsIncludes s "cancel" then "muted"
  else if jsIncludes s "partial" || jsIncludes s "warning" || jsIncludes s "risk" then "warning"
  else "muted"

/-- Function `renderCharts` from app.js: both bar charts take the `hour_utc` column as
x values; y is `avg_volume` for the first chart and `avg_range` for the
second. -/
def renderCharts (data : List HourlyStat) : Charts :=
  { volX := data.map HourlyStat.hour_utc
    volY := data.map HourlyStat.avg_volume
    rangeX := data.map HourlyStat.hour_utc
    rangeY := data.map HourlyStat.avg_range }

/-- Function `renderTable` from app.js: header `hour_utc, avg_volume, avg_range`, then
one body row per record in input order, each cell the rendered field text. -/
def renderTable (data : List HourlyStat) : TableEl :=
  { header := ["hour_utc", "avg_volume", "avg_range"]
    rows := data.map fun r =>
      { cells := [r.hour_utc, r.avg_volume, r.avg_range].map fun c =>
          { text := c, badgeClass := none }
        visible := true } }

/-- Function `renderPositionsTable` from app.js: header `symbol, side, size,
entry_price, status`; the first four cells use `p[k] ?? ""`, the status cell
holds a span with class `badge ` + mapStatusToBadge and text `p.status ?? ""`. -/
def renderPositionsTable (positions : List Position) : TableEl :=
  { header := ["symbol", "side", "size", "entry_price", "status"]
    rows := positions.map fun p =>
      { cells :=
          ([p.symbol, p.side, p.size, p.entry_price].map fun v =>
            { text := v.getD "", badgeClass := none })
          ++ [{ text := p.status.getD ""
                badgeClass := some ("badge " ++ mapStatusToBadge p.status) }]
        visible := true } }

/-- Function `loadAnalysis` from app.js: on a non-2xx response, alert
`Error cargando análisis` and return without rendering; on success render the
charts and the analysis table from the parsed body. -/
def loadAnalysis (resp : HttpResponse (List HourlyStat)) (st : DashboardState) :
    DashboardState :=
  match resp with
  | .err => { st with alerts := st.alerts ++ ["Error cargando análisis"] }
  | .ok data =>
    { st with charts := some (renderCharts data)
              analysisTable := some (renderTable data) }

/-- The `positionsBtn` click handler from app.js: on a non-2xx response,
alert `Error cargando posiciones` and return; on success render the positions
table from the parsed body. -/
def loadPositions (resp : HttpResponse (List Position)) (st : DashboardState) :
    DashboardState :=
  match resp with
  | .err => { st with alerts := st.alerts ++ ["Error cargando posiciones"] }
  | .ok data => { st with positionsTable := some (renderPositionsTable data) }

/-- Function `fetchSymbols` from app.js: clear `#symbol` (`innerHTML = ""`) and append
one option per fetched symbol with value = text = symbol. -/
def fetchSymbols (symbols : List String) (st : DashboardState) : DashboardState :=
  { st with symbolOptions := symbols.map fun s => { value := s, text := s } }

/-- One row under `filterTables q`: `tr.style.display` becomes the empty
string (visible) when `!q || tr.innerText.toLowerCase().includes(q)`, else
`none` (hidden). -/
def filterRow (q : String) (r : Row) : Row :=
  { r with visible := (q == "") || jsIncludes (lowerStr (rowInnerText r)) q }

/-- Function `filterTables` restricted to one table: every `tbody tr` gets its display
set by the match test. -/
def filterTable1 (q : String) (t : TableEl) : TableEl :=
  { t with rows := t.rows.map (filterRow q) }

/-- Function `filterTables` from app.js: applies the row filter to the tables inside
`#table` and `#positionsTable` (those that are currently rendered). -/
def filterTables (q : String) (st : DashboardState) : DashboardState :=
  { st with analysisTable := st.analysisTable.map (filterTable1 q)
            positionsTable := st.positionsTable.map (filterTable1 q) }

/-- The currently-rendered tables of the state, in document order. -/
def tablesOf (st : DashboardState) : List TableEl :=
  st.analysisTable.toList ++ st.positionsTable.toList

/-- CSV text of a whole table as built by `exportCurrentTableCSV`: every row
(header first, then body rows, hidden or not) contributes its quoted cells
joined by commas plus a terminating newline. -/
def tableToCsv (t : TableEl) : String :=
  (joinWith "," (t.header.map csvCell) ++ "\n")
  ++ String.join (t.rows.map fun r =>
      joinWith "," ((r.cells.map Cell.text).map csvCell) ++ "\n")

/-- Function `exportCurrentTableCSV` from app.js: if `#table` holds no table, alert
`No hay tabla para exportar` and abort; otherwise download the CSV of that
table. The second component is the downloaded file content, if any. -/
def exportCurrentTableCSV (st : DashboardState) : DashboardState × Option String :=
  match st.analysisTable with
  | none => ({ st with alerts := st.alerts ++ ["No hay tabla para exportar"] }, none)
  | some t => (st, some (tableToCsv t))

/-- The DOM flags set by the theme code: presence of the `data-theme="light"`
attribute on the document element, and the checked state of `#themeToggle`. -/
structure ThemeDom where
  dataThemeLight : Bool
  toggleChecked : Bool
deriving DecidableEq, Repr

/-- Expression `localStorage.getItem("theme") || "dark"`: the stored value unless it is
missing or empty. -/
def savedThemeOf (stored : Option String) : String :=
  match stored with
  | none => "dark"
  | some s => if s = "" then "dark" else s

/-- The DOMContentLoaded theme initialisation from app.js: apply the light
marker iff the saved theme is `light`, and set the toggle checked state to
the same test. -/
def themeInit (stored : Option String) : ThemeDom :=
  let savedTheme := savedThemeOf stored
  { dataThemeLight := savedTheme == "light"
    toggleChecked := savedTheme == "light" }

/-- C1: mapStatusToBadge agrees everywhere with the spec mapping: success for
open/active/live, else muted for closed/filled/cancel, else warning for
partial/warning/risk, else muted (also for empty or missing status), with the
checks applied in that order. -/
theorem mapStatusToBadge_matches_keyword_spec :
    ∀ status : Option String, mapStatusToBadge status = badgeCategorySpec status := by
  intro status
  cases status with
  | none => rfl
  | some st =>
    by_cases h : st = ""
    · subst h; rfl
    · simp [mapStatusToBadge, badgeCategorySpec, h]

/-- C2: for a non-2xx response, both `loadAnalysis` and the positions load
append one blocking alert naming the failed operation and change nothing
else: both rendered tables, the charts and the symbol options are exactly as
before, so no render happens and prior table state survives. -/
theorem load_error_alerts_and_leaves_render_unchanged :
    ∀ st : DashboardState,
      loadAnalysis .err st = { st with alerts := st.alerts ++ ["Error cargando análisis"] }
      ∧ (loadAnalysis .err st).analysisTable = st.analysisTable
      ∧ (loadAnalysis .err st).positionsTable = st.positionsTable
      ∧ (loadAnalysis .err st).charts = st.charts
      ∧ (loadAnalysis .err st).alerts = st.alerts ++ ["Error cargando análisis"]
      ∧ loadPositions .err st = { st with alerts := st.alerts ++ ["Error cargando posiciones"] }
      ∧ (loadPositions .err st).analysisTable = st.analysisTable
      ∧ (loadPositions .err st).positionsTable = st.positionsTable
      ∧ (loadPositions .err st).charts = st.charts
      ∧ (loadPositions .err st).alerts = st.alerts ++ ["Error cargando posiciones"] :=
  fun _ => ⟨rfl, rfl, rfl, rfl, rfl, rfl, rfl, rfl, rfl, rfl⟩

/-- C3: the CSV export of the analysis table with header
`hour_utc, avg_volume, avg_range` and one body row rendered `3, 120.5, 0.02`
is exactly the quoted, comma-joined, newline-terminated string, header
included; and embedded double quotes in a cell are doubled. -/
theorem export_csv_concrete_roundtrip :
    tableToCsv (renderTable
        [{ hour_utc := "3", avg_volume := "120.5", avg_range := "0.02" }])
      = "\"hour_utc\",\"avg_volume\",\"avg_range\"\n\"3\",\"120.5\",\"0.02\"\n"
    ∧ csvCell "a\"b" = "\"a\"\"b\"" := by
  constructor
  · rfl
  · rfl

/-- C5: for every fetched sequence of hourly statistics, the rendered table
has the fixed three-column header, exactly one body row per record whose cell
texts are that record's fields in input order (no sorting or aggregation),
and both bar charts take the `hour_utc` sequence as their x values. -/
theorem renderTable_and_charts_preserve_order :
    ∀ data : List HourlyStat,
      (renderTable data).header = ["hour_utc", "avg_volume", "avg_range"]
      ∧ (renderTable data).rows.length = data.length
      ∧ (renderTable data).rows.map (fun r => r.cells.map Cell.text)
          = data.map (fun s => [s.hour_utc, s.avg_volume, s.avg_range])
      ∧ (∀ r ∈ (renderTable data).rows, r.visible = true)
      ∧ (renderCharts data).volX = data.map HourlyStat.hour_utc
      ∧ (renderCharts data).rangeX = data.map HourlyStat.hour_utc
      ∧ (renderCharts data).volY = data.map HourlyStat.avg_volume
      ∧ (renderCharts data).rangeY = data.map HourlyStat.avg_range := by
  intro data
  refine ⟨rfl, by simp [renderTable], ?_, ?_, rfl, rfl, rfl, rfl⟩
  · simp [renderTable]
  · intro r hr
    simp [renderTable] at hr
    obtain ⟨s, hmem, rfl⟩ := hr
    rfl

/-- Helper: after `filterTable1 q`, each row's display flag equals the JS
test `!q || innerText.toLowerCase().includes(q)` evaluated on that row. -/
theorem filterTable1_row_visible (q : String) (t : TableEl) :
    ∀ r ∈ (filterTable1 q t).rows,
      r.visible = ((q == "") || jsIncludes (lowerStr (rowInnerText r)) q) := by
  intro r hr
  simp [filterTable1] at hr
  obtain ⟨r0, hmem, rfl⟩ := hr
  rfl

/-- Helper: `filterTables` filters exactly the currently-rendered tables. -/
theorem tablesOf_filterTables (q : String) (st : DashboardState) :
    tablesOf (filterTables q st) = (tablesOf st).map (filterTable1 q) := by
  obtain ⟨so, a, p, c, al⟩ := st
  cases a <;> cases p <;> simp [tablesOf, filterTables]

/-- The filtering claim for a query `q`: in every currently-rendered table a
row is visible exactly when its lower-cased visible text contains `q`, and a
subsequent `filterTables` with the empty query makes every row visible. -/
def filterClaimHolds (q : String) (st : DashboardState) : Prop :=
  (∀ t ∈ tablesOf (filterTables q st), ∀ r ∈ t.rows,
      r.visible = jsIncludes (lowerStr (rowInnerText r)) q)
  ∧ ∀ t ∈ tablesOf (filterTables "" (filterTables q st)), ∀ r ∈ t.rows,
      r.visible = true

/-- C4: for every non-empty query, `filterTables` hides exactly the rows of
the rendered analysis and positions tables whose lower-cased visible text
does not contain the query, and applying `filterTables` with the empty query
afterwards restores every row to visible. -/
theorem filter_hides_nonmatching_and_clearing_restores (q : String)
    (st : DashboardState) (hq : q ≠ "") : filterClaimHolds q st := by
  have hq2 : (q == "") = false := by simpa using hq
  constructor
  · intro t ht r hr
    rw [tablesOf_filterTables] at ht
    obtain ⟨t0, hmem, rfl⟩ := List.mem_map.mp ht
    have h := filterTable1_row_visible q t0 r hr
    rw [hq2] at h
    simpa using h
  · intro t ht r hr
    rw [tablesOf_filterTables] at ht
    obtain ⟨t0, hmem, rfl⟩ := List.mem_map.mp ht
    have h := filterTable1_row_visible "" t0 r hr
    simpa using h

/-- A concrete dashboard state with one analysis table of two rows and one
positions table of one row, used to witness the filtering claim. -/
def demoState : DashboardState :=
  { symbolOptions := []
    analysisTable := some
      { header := ["hour_utc", "avg_volume", "avg_range"]
        rows :=
          [ { cells := [{ text := "3", badgeClass := none },
                        { text := "120.5", badgeClass := none }]
              visible := true }
          , { cells := [{ text := "4", badgeClass := none },
                        { text := "BTCUSD", badgeClass := none }]
              visible := true } ] }
    positionsTable := some
      { header := ["symbol", "side", "size", "entry_price", "status"]
        rows :=
          [ { cells := [{ text := "ETHUSD", badgeClass := none },
                        { text := "long", badgeClass := none }]
              visible := true } ] }
    charts := none
    alerts := [] }

/-- Witness for C4 at the concrete query `btc` and `demoState`. -/
theorem filter_claim_witness :
    "btc" ≠ "" ∧ filterClaimHolds "btc" demoState :=
  ⟨by decide, filter_hides_nonmatching_and_clearing_restores "btc" demoState (by decide)⟩

/-- C6: theme initialisation: with nothing persisted the document carries no
light marker and the toggle is unchecked (dark default); with `light`
persisted the marker is applied and the toggle checked; and in every case the
toggle's checked state equals the test `saved theme == light`, which is also
exactly when the light marker is present. -/
theorem themeInit_defaults_dark_and_syncs_toggle :
    themeInit none = { dataThemeLight := false, toggleChecked := false }
    ∧ themeInit (some "light") = { dataThemeLight := true, toggleChecked := true }
    ∧ (∀ stored, (themeInit stored).toggleChecked = (savedThemeOf stored == "light"))
    ∧ ∀ stored, (themeInit stored).dataThemeLight = (themeInit stored).toggleChecked :=
  ⟨rfl, rfl, fun _ => rfl, fun _ => rfl⟩

/-- C7: each rendered position row shows, in order, `symbol, side, size,
entry_price, status`, with `none` fields rendered as the empty string and
present values rendered as their own text, and the status cell carrying the
class `badge ` followed by the mapped category; concretely, a position with
`symbol` rendered `0`, empty `side`, missing `size` and `status` renders as
`[0, , , 1.5, ]`. -/
theorem renderPositionsTable_nullish_and_badges :
    ∀ ps : List Position,
      (renderPositionsTable ps).header = ["symbol", "side", "size", "entry_price", "status"]
      ∧ (renderPositionsTable ps).rows.length = ps.length
      ∧ (renderPositionsTable ps).rows.map (fun r => r.cells.map fun c => (c.text, c.badgeClass))
          = ps.map (fun p =>
              [(p.symbol.getD "", none), (p.side.getD "", none), (p.size.getD "", none),
               (p.entry_price.getD "", none),
               (p.status.getD "", some ("badge " ++ mapStatusToBadge p.status))])
      ∧ ((renderPositionsTable
            [{ symbol := some "0", side := some "", size := none,
               entry_price := some "1.5", status := none }]).rows.map
            fun r => r.cells.map Cell.text)
          = [["0", "", "", "1.5", ""]] := by
  intro ps
  refine ⟨rfl, by simp [renderPositionsTable], ?_, by rfl⟩
  simp [renderPositionsTable]

/-- What `exportCurrentTableCSV` does when `#table` holds no table: no file,
no change to any rendered state, and the abort alert appended. -/
def exportAbortClaim (st : DashboardState) : Prop :=
  (exportCurrentTableCSV st).2 = none
  ∧ (exportCurrentTableCSV st).1.symbolOptions = st.symbolOptions
  ∧ (exportCurrentTableCSV st).1.analysisTable = st.analysisTable
  ∧ (exportCurrentTableCSV st).1.positionsTable = st.positionsTable
  ∧ (exportCurrentTableCSV st).1.charts = st.charts
  ∧ (exportCurrentTableCSV st).1.alerts = st.alerts ++ ["No hay tabla para exportar"]

/-- C8: when no analysis table is in the DOM, export shows the blocking
alert, produces no file and changes nothing else; and the produced file
depends only on the analysis table, never on the positions table or any
other state. -/
theorem export_missing_table_alerts_and_aborts (st : DashboardState)
    (h : st.analysisTable = none) :
    exportAbortClaim st
    ∧ ∀ s1 s2 : DashboardState, s1.analysisTable = s2.analysisTable →
        (exportCurrentTableCSV s1).2 = (exportCurrentTableCSV s2).2 := by
  constructor
  · simp [exportAbortClaim, exportCurrentTableCSV, h]
  · intro s1 s2 h12
    cases hc : s2.analysisTable <;> simp [exportCurrentTableCSV, h12, hc]

/-- A dashboard state with nothing rendered, used to witness the export
abort claim. -/
def emptyState : DashboardState :=
  { symbolOptions := [], analysisTable := none, positionsTable := none,
    charts := none, alerts := [] }

/-- Witness for C8 at `emptyState`, which has no analysis table. -/
theorem export_missing_table_witness :
    emptyState.analysisTable = none
    ∧ (exportAbortClaim emptyState
       ∧ ∀ s1 s2 : DashboardState, s1.analysisTable = s2.analysisTable →
           (exportCurrentTableCSV s1).2 = (exportCurrentTableCSV s2).2) :=
  ⟨rfl, export_missing_table_alerts_and_aborts emptyState rfl⟩

/-- C9: every symbol refresh fully replaces the options: the new option list
is exactly one option per fetched symbol with value = text = symbol, has the
same length as the fetched array, and is independent of whatever options were
present before. -/
theorem fetchSymbols_full_replace :
    ∀ (symbols : List String) (st st2 : DashboardState),
      (fetchSymbols symbols st).symbolOptions
        = symbols.map (fun s => ({ value := s, text := s } : SelOption))
      ∧ (fetchSymbols symbols st).symbolOptions.length = symbols.length
      ∧ (fetchSymbols symbols st).symbolOptions = (fetchSymbols symbols st2).symbolOptions
      ∧ ∀ o ∈ (fetchSymbols symbols st).symbolOptions, o.value = o.text ∧ o.value ∈ symbols := by
  intro symbols st st2
  refine ⟨rfl, by simp [fetchSymbols], rfl, ?_⟩
  intro o ho
  simp [fetchSymbols] at ho
  obtain ⟨s, hs, rfl⟩ := ho
  exact ⟨rfl, hs⟩

/-- C10: the exported CSV is independent of the current filter query: it is
built from all rows of the analysis table, hidden or not, so exporting after
any `filterTables q` yields the same file as exporting with no filter. -/
theorem export_independent_of_filter :
    ∀ (q : String) (st : DashboardState),
      (exportCurrentTableCSV (filterTables q st)).2 = (exportCurrentTableCSV st).2 := by
  intro q st
  obtain ⟨so, a, p, c, al⟩ := st
  cases a with
  | none => rfl
  | some t =>
    have hcells : ∀ r : Row, (filterRow q r).cells = r.cells := fun _ => rfl
    have hcsv : tableToCsv (filterTable1 q t) = tableToCsv t := by
      simp [tableToCsv, filterTable1, List.map_map, Function.comp_def, hcells]
    simp [filterTables, exportCurrentTableCSV, hcsv]
